import Mathlib

/-!
Verification of the command/procedure scheduling and lock-resolution core of
mysql-fabric, as implemented in lib/mysql/fabric/command.py. The Python code
is embedded shallowly: dictionaries become association lists, Python sets
become finite sets, raised exceptions become an explicit error type carried
by Except, and machine-level collaborators that are not part of the
repository sources (the executor job constants, the persistence transaction
interface, the shard-mapping metadata store) are modelled from the written
specification and passed in as explicit values.
-/

/-- A Python value as it appears in the embedded fragment: the constant
None, a string, or an integer. -/
inductive PyVal where
  | noneVal
  | str (s : String)
  | int (n : Int)
deriving DecidableEq

/-- The exceptions the embedded fragment can raise: KeyError from a missing
dictionary key (the not-found condition of the spec, as mysql.fabric.errors
is outside the embedded sources), IndexError from sequence indexing,
AssertionError from a failed assert statement, DatabaseError from the
persistence layer, and a catch-all for any other exception class. -/
inductive PyErr where
  | keyError
  | indexError
  | assertionError
  | databaseError (msg : String)
  | otherError (msg : String)
deriving DecidableEq

deriving instance DecidableEq for Except

/-- Whether an exception is an instance of errors.DatabaseError. -/
def PyErr.isDatabaseError : PyErr → Bool
  | .databaseError _ => true
  | _ => false

/-- Python sequence indexing l[i]: a negative index counts from the end, an
index that is still out of range raises IndexError. -/
def pyIdx {α : Type} (l : List α) (i : Int) : Except PyErr α :=
  let j : Int := if i < 0 then i + (l.length : Int) else i
  if j < 0 then .error .indexError
  else
    match l.get? j.toNat with
    | some x => .ok x
    | none => .error .indexError

/-- Python l[-1]: the last element, IndexError on an empty sequence. -/
def pyLast {α : Type} (l : List α) : Except PyErr α := pyIdx l (-1)

/-- Python str.upper() on a byte string: ASCII uppercase mapping, character
by character. -/
def pyUpper (s : String) : String := ⟨s.data.map Char.toUpper⟩

/-- Splitting a character list at every newline; the empty list splits into
the one empty piece, matching Python. -/
def splitNl : List Char → List (List Char)
  | [] => [[]]
  | c :: rest =>
    match splitNl rest with
    | [] => [[c]]
    | cur :: parts => if c = '\n' then [] :: cur :: parts else (c :: cur) :: parts

/-- Python s.split(chr(10)): the pieces of s between its newlines, keeping
empty pieces; the result always has at least one element. -/
def pySplitLines (s : String) : List String := (splitNl s.data).map (fun cs => ⟨cs⟩)

/-- The module-level registry _COMMANDS_CLASS: a dictionary from group name
to a dictionary from command name to the command class (classes are carried
as opaque strings here). -/
abbrev Registry := List (String × List (String × String))

/-- get_commands: the command names registered within a group; a missing
group raises the not-found condition of a Python dictionary lookup. -/
def get_commands (reg : Registry) (group_name : String) : Except PyErr (List String) :=
  match List.lookup group_name reg with
  | none => .error .keyError
  | some commands => .ok (commands.map Prod.fst)

/-- get_command: the registered command under a (group, name) pair; either
lookup raises the not-found condition when its key is absent. -/
def get_command (reg : Registry) (group_name command_name : String) :
    Except PyErr String :=
  match List.lookup group_name reg with
  | none => .error .keyError
  | some commands =>
    match List.lookup command_name commands with
    | none => .error .keyError
    | some c => .ok c

/-- The per-instance state of class Command: the private attributes
__client, __server, __options and __config, each initialized to None by
Command.__init__. -/
structure Command where
  client : Option PyVal
  server : Option PyVal
  options : Option PyVal
  config : Option PyVal
deriving DecidableEq

/-- A freshly constructed Command: every attribute is None. -/
def Command.new : Command := ⟨none, none, none, none⟩

/-- Command.setup_client: asserts that no server context is set, then
stores the client execution context. The assert fires before any
assignment, so a failing call leaves the command unchanged. -/
def Command.setup_client (self : Command) (client options config : Option PyVal) :
    Except PyErr Command :=
  if self.server = none then
    .ok { self with client := client, options := options, config := config }
  else .error .assertionError

/-- Command.setup_server: asserts that no client context is set, then
stores the server execution context. -/
def Command.setup_server (self : Command) (server options config : Option PyVal) :
    Except PyErr Command :=
  if self.client = none then
    .ok { self with server := server, options := options, config := config }
  else .error .assertionError

/-- One call in a sequence of setup calls against a command. -/
inductive SetupOp where
  | client (c o cfg : Option PyVal)
  | server (s o cfg : Option PyVal)

/-- Run one setup call; a call whose assertion fails raises and therefore
leaves the command state as it was. -/
def Command.applySetup (self : Command) (op : SetupOp) : Command :=
  match op with
  | .client c o cfg =>
    match self.setup_client c o cfg with
    | .ok st => st
    | .error _ => self
  | .server s o cfg =>
    match self.setup_server s o cfg with
    | .ok st => st
    | .error _ => self

/-- Run a sequence of setup calls against a freshly constructed Command. -/
def Command.runSetup (ops : List SetupOp) : Command :=
  ops.foldl Command.applySetup Command.new

/-- Modelled from the spec: mysql.fabric.executor is not under src/. The Job
lifecycle state read by status rendering; COMPLETE is the terminal state. -/
inductive JobState where
  | enqueued
  | running
  | complete
deriving DecidableEq

/-- Modelled from the spec: mysql.fabric.executor is not under src/. The
success classification of a terminal Job. -/
inductive JobSuccess where
  | success
  | failure
deriving DecidableEq

/-- One step of the execution history of a procedure, as the status triple
carries it: the dictionary with keys state, success, description and
diagnosis read by procedure_status. -/
structure Operation where
  state : JobState
  success : JobSuccess
  description : String
  diagnosis : String
deriving DecidableEq

/-- A procedure handle as wait_for_procedures reads it: its uuid rendered as
a string, its step history and its terminal result (carried here as the
string the status renderer would print for it). -/
structure Procedure where
  uuid : String
  status : List Operation
  result : String
deriving DecidableEq

/-- The status argument of procedure_status: either a bare uuid string (the
non-blocking shape) or the triple (proc_id, step history, result). -/
inductive ProcStatus where
  | uuid (s : String)
  | triple (proc_id : String) (operations : List Operation) (result : String)
deriving DecidableEq

/-- What wait_for_procedures returns: only the uuid in the non-blocking
case, the full triple in the blocking case. -/
inductive WaitResult where
  | async (uuid : String)
  | sync (uuid : String) (status : List Operation) (result : String)
deriving DecidableEq

/-- ProcedureCommand.wait_for_procedures. The synchronous argument is
carried as the string str(synchronous) produces; upper() is ASCII case
mapping on it. Modelled from the spec: Executor.wait_for_procedure (the
executor is not under src/) blocks until the procedure is terminal and
returns nothing, so on the level of returned values the wait adds
nothing; the blocking itself is outside the value model. -/
def ProcedureCommand.wait_for_procedures (procedure_param : List Procedure)
    (synchronous : String) : Except PyErr WaitResult :=
  if procedure_param.length = 1 then
    let sync := !(pyUpper synchronous == "FALSE" || pyUpper synchronous == "0")
    match pyLast procedure_param with
    | .error e => .error e
    | .ok procedure =>
      if sync then .ok (.sync procedure.uuid procedure.status procedure.result)
      else .ok (.async procedure.uuid)
  else .error .assertionError

/-- The fixed rendering template of procedure_status, with the five fields
substituted for the %s placeholders. -/
def procTemplate (u f s r a : String) : String :=
  "Procedure :\n\x7b uuid        = " ++ u ++ ",\n  finished    = " ++ f ++
    ",\n  success     = " ++ s ++ ",\n  return      = " ++ r ++
    ",\n  activities  = " ++ a ++ "\n\x7d"

/-- str() of a Python boolean. -/
def pyStrBool (b : Bool) : String := if b then "True" else "False"

/-- ProcedureCommand.procedure_status: renders a status reported by
wait_for_procedures for the command line. -/
def ProcedureCommand.procedure_status (status : ProcStatus) (details : Bool) :
    Except PyErr String :=
  match status with
  | .uuid s => .ok (procTemplate s "" "" "" "")
  | .triple proc_id operations result =>
    match pyLast operations with
    | .error e => .error e
    | .ok operation =>
      let complete := decide (operation.state = JobState.complete)
      let success := decide (operation.success = JobSuccess.success)
      if success then
        let activities :=
          if details then String.intercalate "\n  " (operations.map Operation.description)
          else ""
        .ok (procTemplate proc_id (pyStrBool complete) (pyStrBool success) result activities)
      else
        let trace := pySplitLines operation.diagnosis
        match pyIdx trace (-2) with
        | .error e => .error e
        | .ok returned =>
          let activities := if details then String.intercalate "\n" trace else ""
          .ok (procTemplate proc_id (pyStrBool complete) (pyStrBool success) returned activities)

/-- ProcedureCommand.get_lockable_objects: the default strategy; the two
parameters are accepted and ignored, and the set holding the single string
"lock" is returned. -/
def ProcedureCommand.get_lockable_objects (_varParam _funcParam : Option String) :
    Finset PyVal := {PyVal.str "lock"}

/-- Python dictionary assignment d[k] = v on an association list: replace
the value under an existing key, otherwise append the new pair. -/
def dictSet (d : List (String × PyVal)) (k : String) (v : PyVal) :
    List (String × PyVal) :=
  if (List.lookup k d).isSome then
    d.map (fun kv => if kv.1 = k then (k, v) else kv)
  else d ++ [(k, v)]

/-- The loop of _get_args_values over the requested variable names: a name
not among the declared arguments of the function is skipped; for a declared
name the assert args.get(variable, None) is None fires when a value other
than None is already stored, then the value is read from the locals of the
frame (a dictionary lookup) and stored. -/
def gavLoop (varNames : List String) (argspec : List String)
    (frameLocals : List (String × PyVal)) (args : List (String × PyVal)) :
    Except PyErr (List (String × PyVal)) :=
  match varNames with
  | [] => .ok args
  | v :: rest =>
    if v ∈ argspec then
      if (List.lookup v args).getD PyVal.noneVal = PyVal.noneVal then
        match List.lookup v frameLocals with
        | none => .error .keyError
        | some value => gavLoop rest argspec frameLocals (dictSet args v value)
      else .error .assertionError
    else gavLoop rest argspec frameLocals args

/-- _get_args_values(variables, function, frame): the function is carried by
the list of its declared argument names (inspect.getargspec(function).args)
and the frame by the name-to-value map of its locals; a frame of None yields
the empty dictionary at once. -/
def _get_args_values (varNames : List String) (argspec : List String)
    (frame : Option (List (String × PyVal))) :
    Except PyErr (List (String × PyVal)) :=
  match frame with
  | none => .ok []
  | some frameLocals => gavLoop varNames argspec frameLocals []

/-- The shared tail of both specialized strategies: if the resolution
produced no keys at all, the sentinel key "lock" is added. -/
def finalizeLocks (s : Finset PyVal) : Finset PyVal :=
  if s = ∅ then insert (PyVal.str "lock") s else s

/-- ProcedureGroup.get_lockable_objects: variable defaults to "group_id"
when None (or falsy), the single name is resolved against the actual
arguments of the pending execute call, every resolved value is added, and
an empty result falls back to the sentinel. -/
def ProcedureGroup.get_lockable_objects (varParam : Option String)
    (argspec : List String) (frame : Option (List (String × PyVal))) :
    Except PyErr (Finset PyVal) :=
  let v := match varParam with
    | none => "group_id"
    | some s => if s = "" then "group_id" else s
  match _get_args_values [v] argspec frame with
  | .error e => .error e
  | .ok args =>
    .ok (finalizeLocks (args.foldl (fun s nv => insert nv.2 s) (∅ : Finset PyVal)))

/-- The variable parameter of ProcedureShard.get_lockable_objects as Python
receives it: None, a single name, or a tuple of names. -/
inductive VarParam where
  | noneVar
  | strVar (s : String)
  | tupleVar (ss : List String)

/-- The default tuple of argument names the shard strategy resolves. -/
def defaultShardVars : List String :=
  ["group_id", "table_name", "shard_mapping_id", "shard_id"]

/-- variable = variable or (default tuple), followed by wrapping a non-tuple
into a one-element tuple; a falsy value (None, the empty string, the empty
tuple) selects the default. -/
def resolveShardVars : VarParam → List String
  | .noneVar => defaultShardVars
  | .strVar s => if s = "" then defaultShardVars else [s]
  | .tupleVar ss => if ss = [] then defaultShardVars else ss

/-- Modelled from the spec: mysql.fabric.persistence is not under src/. The
transaction interface of the current persister consists of begin, commit
and rollback, each of which either succeeds or raises; per the spec the
failures of commit and rollback are DatabaseError. A Persister value
records the outcome each call would have during one resolution. -/
structure Persister where
  begin : Except PyErr Unit
  commit : Except PyErr Unit
  rollback : Except PyErr Unit

/-- Modelled from the spec: mysql.fabric.sharding.MappingShardsGroups is
not under src/. get_group maps (scope, key name, key value) to a sequence
of rows whose first field is an owning group identifier; a metadata
failure raises. -/
abbrev MappingStore := String → String → PyVal → Except PyErr (List (List PyVal))

/-- The inner loop over the rows one mapping query returned: row[0] is
added for every row. -/
def ProcedureShard.addRowFirsts (rows : List (List PyVal)) (s : Finset PyVal) :
    Except PyErr (Finset PyVal) :=
  match rows with
  | [] => .ok s
  | row :: rest =>
    match pyIdx row 0 with
    | .error e => .error e
    | .ok x => ProcedureShard.addRowFirsts rest (insert x s)

/-- The loop of ProcedureShard.get_lockable_objects over the resolved
(name, value) pairs: a group_id value is added directly, any other value is
used to query the local and then the global mapping, adding the first field
of every returned row. -/
def ProcedureShard.addArgsLocks (store : MappingStore)
    (args : List (String × PyVal)) (s : Finset PyVal) :
    Except PyErr (Finset PyVal) :=
  match args with
  | [] => .ok s
  | (name, value) :: rest =>
    if name = "group_id" then ProcedureShard.addArgsLocks store rest (insert value s)
    else
      match store "local" name value with
      | .error e => .error e
      | .ok rows =>
        match ProcedureShard.addRowFirsts rows s with
        | .error e => .error e
        | .ok s1 =>
          match store "global" name value with
          | .error e => .error e
          | .ok rows2 =>
            match ProcedureShard.addRowFirsts rows2 s1 with
            | .error e => .error e
            | .ok s2 => ProcedureShard.addArgsLocks store rest s2

/-- The try block of ProcedureShard.get_lockable_objects: begin the
metadata transaction, resolve the argument values, accumulate the lock
keys, and fall back to the sentinel when nothing was produced. -/
def ProcedureShard.tryBody (p : Persister) (store : MappingStore)
    (varArg : VarParam) (argspec : List String)
    (frame : Option (List (String × PyVal))) : Except PyErr (Finset PyVal) :=
  match p.begin with
  | .error e => .error e
  | .ok _ =>
    match _get_args_values (resolveShardVars varArg) argspec frame with
    | .error e => .error e
    | .ok args =>
      match ProcedureShard.addArgsLocks store args ∅ with
      | .error e => .error e
      | .ok s => .ok (finalizeLocks s)

/-- ProcedureShard.get_lockable_objects: on any exception inside the try
block a rollback is attempted (a DatabaseError it raises is only logged)
and the original exception is re-raised; otherwise a commit is attempted,
a DatabaseError it raises is only logged, and the computed set is
returned. -/
def ProcedureShard.get_lockable_objects (p : Persister) (store : MappingStore)
    (varArg : VarParam) (argspec : List String)
    (frame : Option (List (String × PyVal))) : Except PyErr (Finset PyVal) :=
  match ProcedureShard.tryBody p store varArg argspec frame with
  | .error e =>
    match p.rollback with
    | .ok _ => .error e
    | .error re => if re.isDatabaseError then .error e else .error re
  | .ok lockable_objects =>
    match p.commit with
    | .ok _ => .ok lockable_objects
    | .error ce => if ce.isDatabaseError then .ok lockable_objects else .error ce

/-- A persister whose begin, commit and rollback all succeed. -/
def persisterOk : Persister := ⟨.ok (), .ok (), .ok ()⟩

/-- A metadata store whose queries all succeed, given by the pure rows
function underneath. -/
def storeOf (rows : String → String → PyVal → List (List PyVal)) : MappingStore :=
  fun scope name value => .ok (rows scope name value)

/-- Worded from the claim, for comparison with the code: the first field of
every returned row is added to the set (a row with no first field
contributes nothing here; the code raises on it instead). -/
def claimAddFirsts (rows : List (List PyVal)) (s : Finset PyVal) : Finset PyVal :=
  rows.foldl (fun s row => match row with | [] => s | x :: _ => insert x s) s

/-- Worded from the claim: one resolved (name, value) pair contributes the
value itself when the name is group_id, and otherwise the first fields of
the rows of the local and the global mapping query. -/
def claimShardStep (rows : String → String → PyVal → List (List PyVal))
    (s : Finset PyVal) (nv : String × PyVal) : Finset PyVal :=
  if nv.1 = "group_id" then insert nv.2 s
  else claimAddFirsts (rows "global" nv.1 nv.2) (claimAddFirsts (rows "local" nv.1 nv.2) s)

/-- Worded from the claim: the lock-key set of the shard strategy is the
accumulation over all resolved pairs, with the single sentinel key "lock"
instead when that accumulation is empty. -/
def claimShardSet (rows : String → String → PyVal → List (List PyVal))
    (args : List (String × PyVal)) : Finset PyVal :=
  let s := args.foldl (claimShardStep rows) (∅ : Finset PyVal)
  if s = ∅ then {PyVal.str "lock"} else s

/-- The concrete store of the claim instance: the local mapping of
shard_id = 7 holds the single group G2 and the global mapping the single
group G1; every other query returns no rows. -/
def rows7 : String → String → PyVal → List (List PyVal) := fun scope name value =>
  if name = "shard_id" ∧ value = PyVal.int 7 then
    (if scope = "local" then [[PyVal.str "G2"]]
     else if scope = "global" then [[PyVal.str "G1"]] else [])
  else []

theorem applySetup_inv (st : Command) (op : SetupOp)
    (h : st.client = none ∨ st.server = none) :
    (st.applySetup op).client = none ∨ (st.applySetup op).server = none := by
  cases op with
  | client c o cfg =>
    by_cases hs : st.server = none
    · simp [Command.applySetup, Command.setup_client, hs]
    · simp [Command.applySetup, Command.setup_client, hs]
      exact h.resolve_right hs
  | server s o cfg =>
    by_cases hc : st.client = none
    · simp [Command.applySetup, Command.setup_server, hc]
    · simp [Command.applySetup, Command.setup_server, hc]
      exact h.resolve_left hc

theorem foldl_setup_inv (ops : List SetupOp) (st : Command)
    (h : st.client = none ∨ st.server = none) :
    (ops.foldl Command.applySetup st).client = none ∨
      (ops.foldl Command.applySetup st).server = none := by
  induction ops generalizing st with
  | nil => exact h
  | cons op rest ih => exact ih (st.applySetup op) (applySetup_inv st op h)

/-- C8: setup_client fails by assertion whenever a server context is set,
setup_server symmetrically whenever a client context is set, and along any
sequence of setup calls on a fresh Command the command never holds a client
context and a server context at the same time. -/
theorem C8_mutually_exclusive_contexts :
    (∀ (cmd : Command) (c o cfg : Option PyVal), cmd.server ≠ none →
      cmd.setup_client c o cfg = .error .assertionError) ∧
    (∀ (cmd : Command) (s o cfg : Option PyVal), cmd.client ≠ none →
      cmd.setup_server s o cfg = .error .assertionError) ∧
    (∀ ops : List SetupOp,
      ¬((Command.runSetup ops).client ≠ none ∧ (Command.runSetup ops).server ≠ none)) := by
  refine ⟨?_, ?_, ?_⟩
  · intro cmd c o cfg h
    simp [Command.setup_client, h]
  · intro cmd s o cfg h
    simp [Command.setup_server, h]
  · intro ops h
    have := foldl_setup_inv ops Command.new (Or.inl rfl)
    unfold Command.runSetup at h
    rcases this with hc | hs
    · exact h.1 hc
    · exact h.2 hs

theorem C8_witness :
    Command.setup_client ⟨none, some (PyVal.str "srv"), none, none⟩ none none none =
      .error .assertionError ∧
    Command.setup_server ⟨some (PyVal.str "cli"), none, none, none⟩ none none none =
      .error .assertionError ∧
    ¬((Command.runSetup [SetupOp.client (some (PyVal.str "c")) none none]).client ≠ none ∧
      (Command.runSetup [SetupOp.client (some (PyVal.str "c")) none none]).server ≠ none) :=
  ⟨C8_mutually_exclusive_contexts.1 _ none none none (by decide),
   C8_mutually_exclusive_contexts.2.1 _ none none none (by decide),
   C8_mutually_exclusive_contexts.2.2 _⟩

/-- C7: a lookup of an absent group in the command registry fails with the
not-found condition, and so does a lookup of an absent (group, name) pair. -/
theorem C7_registry_lookup_not_found :
    (∀ (reg : Registry) (g : String), List.lookup g reg = none →
      get_commands reg g = .error .keyError) ∧
    (∀ (reg : Registry) (g n : String), List.lookup g reg = none →
      get_command reg g n = .error .keyError) ∧
    (∀ (reg : Registry) (g n : String) (cmds : List (String × String)),
      List.lookup g reg = some cmds → List.lookup n cmds = none →
      get_command reg g n = .error .keyError) := by
  refine ⟨?_, ?_, ?_⟩
  · intro reg g h
    simp [get_commands, h]
  · intro reg g n h
    simp [get_command, h]
  · intro reg g n cmds hg hn
    simp [get_command, hg, hn]

theorem C7_witness :
    get_commands [("grp", [("cmd", "C")])] "missing" = .error .keyError ∧
    get_command [("grp", [("cmd", "C")])] "missing" "cmd" = .error .keyError ∧
    get_command [("grp", [("cmd", "C")])] "grp" "missing" = .error .keyError :=
  ⟨C7_registry_lookup_not_found.1 _ "missing" (by decide),
   C7_registry_lookup_not_found.2.1 _ "missing" "cmd" (by decide),
   C7_registry_lookup_not_found.2.2 _ "grp" "missing" [("cmd", "C")] (by decide) (by decide)⟩

theorem pyLast_singleton {α : Type} (x : α) : pyLast [x] = .ok x := rfl

/-- C3: with a one-element procedure list, a synchronous argument whose
string form uppercases to FALSE or 0 yields only the uuid, and any other
value yields the triple of uuid, status and result. -/
theorem C3_wait_for_procedures (p : Procedure) (synchronous : String) :
    ((pyUpper synchronous = "FALSE" ∨ pyUpper synchronous = "0") →
      ProcedureCommand.wait_for_procedures [p] synchronous = .ok (.async p.uuid)) ∧
    (¬(pyUpper synchronous = "FALSE" ∨ pyUpper synchronous = "0") →
      ProcedureCommand.wait_for_procedures [p] synchronous =
        .ok (.sync p.uuid p.status p.result)) := by
  constructor
  · intro h
    rcases h with h | h <;>
      simp [ProcedureCommand.wait_for_procedures, pyLast_singleton, h]
  · intro h
    push_neg at h
    simp [ProcedureCommand.wait_for_procedures, pyLast_singleton, h.1, h.2]

theorem C3_witness :
    ProcedureCommand.wait_for_procedures [⟨"u", [], "r"⟩] "false" = .ok (.async "u") ∧
    ProcedureCommand.wait_for_procedures [⟨"u", [], "r"⟩] "yes" = .ok (.sync "u" [] "r") :=
  ⟨(C3_wait_for_procedures ⟨"u", [], "r"⟩ "false").1 (Or.inl (by decide)),
   (C3_wait_for_procedures ⟨"u", [], "r"⟩ "yes").2 (by decide)⟩

theorem pyIdx_neg_two_ok {α : Type} (l : List α) (r : α) (h2 : 2 ≤ l.length)
    (hget : l.get? (l.length - 2) = some r) : pyIdx l (-2) = .ok r := by
  simp only [pyIdx]
  have hj : (if (-2 : Int) < 0 then (-2 : Int) + (l.length : Int) else (-2 : Int)) =
      (l.length : Int) - 2 := by
    rw [if_pos (by norm_num)]; ring
  rw [hj, if_neg (by omega)]
  have ht : ((l.length : Int) - 2).toNat = l.length - 2 := by omega
  rw [ht, hget]

theorem pyIdx_neg_two_short {α : Type} (l : List α) (h2 : l.length < 2) :
    pyIdx l (-2) = .error .indexError := by
  simp only [pyIdx]
  have hj : (if (-2 : Int) < 0 then (-2 : Int) + (l.length : Int) else (-2 : Int)) =
      (l.length : Int) - 2 := by
    rw [if_pos (by norm_num)]; ring
  rw [hj, if_pos (by omega)]

/-- C5 (amended): on a successful terminal status the rendering shows
finished True, success True, the result as the return value, and with
details the step descriptions joined by the separator newline plus two
spaces. -/
theorem C5_success_status (proc_id res : String) (operations : List Operation)
    (details : Bool) (op : Operation)
    (hlast : pyLast operations = .ok op)
    (hstate : op.state = JobState.complete)
    (hsucc : op.success = JobSuccess.success) :
    ProcedureCommand.procedure_status (.triple proc_id operations res) details =
      .ok (procTemplate proc_id "True" "True" res
        (if details then String.intercalate "\n  " (operations.map Operation.description)
         else "")) := by
  simp [ProcedureCommand.procedure_status, hlast, hstate, hsucc, pyStrBool]

/-- C5 counterexample: with details requested and two successful steps, the
activities field is not the descriptions joined by plain newlines. -/
theorem C5_counterexample :
    ProcedureCommand.procedure_status
      (.triple "u" [⟨.complete, .success, "d1", ""⟩, ⟨.complete, .success, "d2", ""⟩] "r")
      true ≠
      .ok (procTemplate "u" "True" "True" "r" (String.intercalate "\n" ["d1", "d2"])) := by
  decide

theorem C5_witness :
    ProcedureCommand.procedure_status
      (.triple "u" [⟨.complete, .success, "d1", ""⟩, ⟨.complete, .success, "d2", ""⟩] "r")
      true =
      .ok (procTemplate "u" "True" "True" "r" "d1\n  d2") := by
  have h := C5_success_status "u" "r"
    [⟨.complete, .success, "d1", ""⟩, ⟨.complete, .success, "d2", ""⟩] true
    ⟨.complete, .success, "d2", ""⟩ (by decide) rfl rfl
  exact h.trans (by decide)

/-- C6: on a failed terminal status the return value is the second-to-last
line of the diagnosis trace of the last step, with details the activities
are the full trace joined by newlines, finished reflects whether the state
is COMPLETE and success is False. -/
theorem C6_failure_status (proc_id res : String) (operations : List Operation)
    (details : Bool) (op : Operation) (r : String)
    (hlast : pyLast operations = .ok op)
    (hfail : op.success ≠ JobSuccess.success)
    (h2 : 2 ≤ (pySplitLines op.diagnosis).length)
    (hget : (pySplitLines op.diagnosis).get?
      ((pySplitLines op.diagnosis).length - 2) = some r) :
    ProcedureCommand.procedure_status (.triple proc_id operations res) details =
      .ok (procTemplate proc_id (pyStrBool (decide (op.state = JobState.complete))) "False" r
        (if details then String.intercalate "\n" (pySplitLines op.diagnosis) else "")) := by
  have hidx := pyIdx_neg_two_ok _ r h2 hget
  simp [ProcedureCommand.procedure_status, hlast, hfail, hidx, pyStrBool]

theorem C6_witness :
    ProcedureCommand.procedure_status
      (.triple "u" [⟨.complete, .failure, "d1", "line1\nline2\nline3"⟩] "r") true =
      .ok (procTemplate "u" "True" "False" "line2" "line1\nline2\nline3") := by
  have h := C6_failure_status "u" "r" [⟨.complete, .failure, "d1", "line1\nline2\nline3"⟩]
    true ⟨.complete, .failure, "d1", "line1\nline2\nline3"⟩ "line2"
    (by decide) (by decide) (by decide) (by decide)
  exact h.trans (by decide)

/-- C10: on a failed terminal status whose diagnosis trace has fewer than
two lines, procedure_status raises IndexError instead of returning a
rendered string. -/
theorem C10_short_trace_index_error (proc_id res : String) (operations : List Operation)
    (details : Bool) (op : Operation)
    (hlast : pyLast operations = .ok op)
    (hfail : op.success ≠ JobSuccess.success)
    (hshort : (pySplitLines op.diagnosis).length < 2) :
    ProcedureCommand.procedure_status (.triple proc_id operations res) details =
      .error .indexError := by
  have hidx := pyIdx_neg_two_short (pySplitLines op.diagnosis) hshort
  simp [ProcedureCommand.procedure_status, hlast, hfail, hidx]

theorem C10_witness :
    ProcedureCommand.procedure_status
      (.triple "u" [⟨.complete, .failure, "d1", ""⟩] "r") false = .error .indexError :=
  C10_short_trace_index_error "u" "r" [⟨.complete, .failure, "d1", ""⟩] false
    ⟨.complete, .failure, "d1", ""⟩ (by decide) (by decide) (by decide)

theorem finalizeLocks_nonempty (s : Finset PyVal) : (finalizeLocks s).Nonempty := by
  unfold finalizeLocks
  split
  · exact Finset.insert_nonempty _ _
  · next h => exact Finset.nonempty_iff_ne_empty.mpr h

theorem claimShardSet_eq_finalize (rows : String → String → PyVal → List (List PyVal))
    (args : List (String × PyVal)) :
    claimShardSet rows args = finalizeLocks (args.foldl (claimShardStep rows) ∅) := by
  simp only [claimShardSet, finalizeLocks]
  split
  · next h => simp [h]
  · rfl

theorem addRowFirsts_ok (rows : List (List PyVal)) (s : Finset PyVal)
    (h : ∀ row ∈ rows, row ≠ []) :
    ProcedureShard.addRowFirsts rows s = .ok (claimAddFirsts rows s) := by
  induction rows generalizing s with
  | nil => rfl
  | cons row rest ih =>
    cases row with
    | nil => exact absurd rfl (h [] (List.mem_cons_self _ _))
    | cons x t =>
      have step1 : ProcedureShard.addRowFirsts ((x :: t) :: rest) s =
          ProcedureShard.addRowFirsts rest (insert x s) := rfl
      have step2 : claimAddFirsts ((x :: t) :: rest) s = claimAddFirsts rest (insert x s) := rfl
      rw [step1, step2]
      exact ih (insert x s) (fun r hr => h r (List.mem_cons_of_mem _ hr))

theorem addArgsLocks_ok (rows : String → String → PyVal → List (List PyVal))
    (args : List (String × PyVal)) (s : Finset PyVal)
    (h : ∀ nv ∈ args, nv.1 ≠ "group_id" →
      (∀ row ∈ rows "local" nv.1 nv.2, row ≠ []) ∧
      (∀ row ∈ rows "global" nv.1 nv.2, row ≠ [])) :
    ProcedureShard.addArgsLocks (storeOf rows) args s =
      .ok (args.foldl (claimShardStep rows) s) := by
  induction args generalizing s with
  | nil => rfl
  | cons nv rest ih =>
    obtain ⟨name, value⟩ := nv
    have hrest : ∀ a ∈ rest, a.1 ≠ "group_id" →
        (∀ row ∈ rows "local" a.1 a.2, row ≠ []) ∧
        (∀ row ∈ rows "global" a.1 a.2, row ≠ []) :=
      fun a ha hne => h a (List.mem_cons_of_mem _ ha) hne
    by_cases hg : name = "group_id"
    · subst hg
      have step1 : ProcedureShard.addArgsLocks (storeOf rows) (("group_id", value) :: rest) s =
          ProcedureShard.addArgsLocks (storeOf rows) rest (insert value s) := rfl
      have step2 : List.foldl (claimShardStep rows) s (("group_id", value) :: rest) =
          List.foldl (claimShardStep rows) (insert value s) rest := rfl
      rw [step1, step2]
      exact ih (insert value s) hrest
    · have hrows := h (name, value) (List.mem_cons_self _ _) hg
      have h1 := addRowFirsts_ok (rows "local" name value) s hrows.1
      have h2 := addRowFirsts_ok (rows "global" name value)
        (claimAddFirsts (rows "local" name value) s) hrows.2
      simp only [ProcedureShard.addArgsLocks, if_neg hg, storeOf, h1, h2]
      rw [ih _ hrest, List.foldl_cons]
      simp only [claimShardStep, if_neg hg]

/-- C1: with a persister and a store that succeed, the shard strategy
computes exactly the set the claim words: group_id values directly, the
first field of every row of the local and the global mapping query for
every other resolved name, with the sentinel substituted for an empty
result. -/
theorem C1_shard_lock_resolution (rows : String → String → PyVal → List (List PyVal))
    (argspec : List String) (frame : Option (List (String × PyVal)))
    (args : List (String × PyVal))
    (hargs : _get_args_values defaultShardVars argspec frame = .ok args)
    (hrows : ∀ nv ∈ args, nv.1 ≠ "group_id" →
      (∀ row ∈ rows "local" nv.1 nv.2, row ≠ []) ∧
      (∀ row ∈ rows "global" nv.1 nv.2, row ≠ [])) :
    ProcedureShard.get_lockable_objects persisterOk (storeOf rows) VarParam.noneVar
      argspec frame = .ok (claimShardSet rows args) := by
  have ht : ProcedureShard.tryBody persisterOk (storeOf rows) VarParam.noneVar argspec frame =
      .ok (finalizeLocks (args.foldl (claimShardStep rows) ∅)) := by
    simp only [ProcedureShard.tryBody, persisterOk, resolveShardVars, hargs,
      addArgsLocks_ok rows args ∅ hrows]
  rw [claimShardSet_eq_finalize]
  simp only [ProcedureShard.get_lockable_objects]
  rw [ht]
  rfl

theorem C1_witness :
    ProcedureShard.get_lockable_objects persisterOk (storeOf rows7) VarParam.noneVar
      ["shard_id"] (some [("shard_id", PyVal.int 7)]) =
      .ok (insert (PyVal.str "G1") {PyVal.str "G2"}) := by
  have h := C1_shard_lock_resolution rows7 ["shard_id"] (some [("shard_id", PyVal.int 7)])
    [("shard_id", PyVal.int 7)] (by decide) (by decide)
  exact h.trans (by rfl)

/-- C2: any exception inside the try block of the shard strategy leads,
after the attempted rollback (whose own DatabaseError is only logged), to
the original exception being re-raised, and never to a returned lock set;
whereas a DatabaseError raised by the final commit after successful
lookups is only logged and the computed lock set is still returned. -/
theorem C2_shard_error_discipline (p : Persister) (store : MappingStore)
    (varArg : VarParam) (argspec : List String)
    (frame : Option (List (String × PyVal))) :
    (∀ e, ProcedureShard.tryBody p store varArg argspec frame = .error e →
      (p.rollback = .ok () ∨ ∃ m, p.rollback = .error (.databaseError m)) →
      ProcedureShard.get_lockable_objects p store varArg argspec frame = .error e) ∧
    (∀ e s, ProcedureShard.tryBody p store varArg argspec frame = .error e →
      ProcedureShard.get_lockable_objects p store varArg argspec frame ≠ .ok s) ∧
    (∀ s ce, ProcedureShard.tryBody p store varArg argspec frame = .ok s →
      p.commit = .error ce → ce.isDatabaseError = true →
      ProcedureShard.get_lockable_objects p store varArg argspec frame = .ok s) := by
  refine ⟨?_, ?_, ?_⟩
  · intro e he hr
    simp only [ProcedureShard.get_lockable_objects, he]
    rcases hr with h | ⟨m, h⟩ <;> simp [h, PyErr.isDatabaseError]
  · intro e s he
    simp only [ProcedureShard.get_lockable_objects, he]
    split
    · simp
    · split <;> simp
  · intro s ce hs hc hdb
    simp only [ProcedureShard.get_lockable_objects, hs, hc, hdb]
    simp

theorem C2_witness :
    ProcedureShard.get_lockable_objects persisterOk
      (fun _ _ _ => .error (.databaseError "lookup failed")) VarParam.noneVar
      ["shard_id"] (some [("shard_id", PyVal.int 7)]) =
      .error (.databaseError "lookup failed") ∧
    ProcedureShard.get_lockable_objects
      ⟨.ok (), .error (.databaseError "commit failed"), .ok ()⟩ (storeOf rows7)
      VarParam.noneVar ["shard_id"] (some [("shard_id", PyVal.int 7)]) =
      .ok (insert (PyVal.str "G1") {PyVal.str "G2"}) :=
  ⟨(C2_shard_error_discipline persisterOk
      (fun _ _ _ => .error (.databaseError "lookup failed")) VarParam.noneVar
      ["shard_id"] (some [("shard_id", PyVal.int 7)])).1
      (.databaseError "lookup failed") (by decide) (Or.inl rfl),
   (C2_shard_error_discipline ⟨.ok (), .error (.databaseError "commit failed"), .ok ()⟩
      (storeOf rows7) VarParam.noneVar ["shard_id"]
      (some [("shard_id", PyVal.int 7)])).2.2
      (insert (PyVal.str "G1") {PyVal.str "G2"}) (.databaseError "commit failed")
      (by rfl) rfl rfl⟩

/-- C4: when the pending execute call declares and binds group_id, the
group strategy returns exactly the one-element set with that bound value,
taken from the call-site arguments; when execute has no group_id
parameter, it returns the sentinel set. -/
theorem C4_group_lock_resolution (argspec : List String)
    (frameLocals : List (String × PyVal)) (v : PyVal) :
    ("group_id" ∈ argspec → List.lookup "group_id" frameLocals = some v →
      ProcedureGroup.get_lockable_objects none argspec (some frameLocals) = .ok {v}) ∧
    (∀ frame, "group_id" ∉ argspec →
      ProcedureGroup.get_lockable_objects none argspec frame = .ok {PyVal.str "lock"}) := by
  constructor
  · intro hmem hlook
    simp only [ProcedureGroup.get_lockable_objects, _get_args_values, gavLoop,
      if_pos hmem, hlook, dictSet]
    simp [finalizeLocks, Finset.insert_ne_empty]
  · intro frame hmem
    cases frame with
    | none =>
      simp [ProcedureGroup.get_lockable_objects, _get_args_values, finalizeLocks]
    | some frameLocals2 =>
      simp only [ProcedureGroup.get_lockable_objects, _get_args_values, gavLoop,
        if_neg hmem]
      simp [finalizeLocks]

theorem C4_witness :
    ProcedureGroup.get_lockable_objects none ["self", "group_id", "other"]
      (some [("self", PyVal.noneVal), ("group_id", PyVal.str "G1"), ("other", PyVal.int 5)]) =
      .ok {PyVal.str "G1"} ∧
    ProcedureGroup.get_lockable_objects none ["self", "other"]
      (some [("self", PyVal.noneVal), ("other", PyVal.int 5)]) = .ok {PyVal.str "lock"} :=
  ⟨(C4_group_lock_resolution ["self", "group_id", "other"]
      [("self", PyVal.noneVal), ("group_id", PyVal.str "G1"), ("other", PyVal.int 5)]
      (PyVal.str "G1")).1 (by decide) (by decide),
   (C4_group_lock_resolution ["self", "other"] [] PyVal.noneVal).2
      (some [("self", PyVal.noneVal), ("other", PyVal.int 5)]) (by decide)⟩

theorem group_ok_nonempty (varP : Option String) (argspec : List String)
    (frame : Option (List (String × PyVal))) (s : Finset PyVal)
    (h : ProcedureGroup.get_lockable_objects varP argspec frame = .ok s) :
    s.Nonempty := by
  simp only [ProcedureGroup.get_lockable_objects] at h
  split at h
  · exact absurd h (by simp)
  · rw [Except.ok.injEq] at h
    exact h ▸ finalizeLocks_nonempty _

theorem tryBody_ok_nonempty (p : Persister) (store : MappingStore) (varArg : VarParam)
    (argspec : List String) (frame : Option (List (String × PyVal))) (s : Finset PyVal)
    (h : ProcedureShard.tryBody p store varArg argspec frame = .ok s) : s.Nonempty := by
  simp only [ProcedureShard.tryBody] at h
  split at h
  · exact absurd h (by simp)
  · split at h
    · exact absurd h (by simp)
    · split at h
      · exact absurd h (by simp)
      · rw [Except.ok.injEq] at h
        exact h ▸ finalizeLocks_nonempty _

/-- C9: every strategy returns a non-empty lock-key set whenever it returns
normally: the default strategy returns the sentinel set, and the group and
shard strategies add the sentinel whenever resolution produced nothing. -/
theorem C9_nonempty_lock_sets :
    (∀ varP funcP, (ProcedureCommand.get_lockable_objects varP funcP).Nonempty) ∧
    (∀ varP argspec frame s,
      ProcedureGroup.get_lockable_objects varP argspec frame = .ok s → s.Nonempty) ∧
    (∀ p store varArg argspec frame s,
      ProcedureShard.get_lockable_objects p store varArg argspec frame = .ok s →
        s.Nonempty) := by
  refine ⟨?_, ?_, ?_⟩
  · intro varP funcP
    exact Finset.singleton_nonempty _
  · exact group_ok_nonempty
  · intro p store varArg argspec frame s h
    simp only [ProcedureShard.get_lockable_objects] at h
    split at h
    · split at h
      · exact absurd h (by simp)
      · split at h <;> exact absurd h (by simp)
    · next s2 ht =>
      have hne := tryBody_ok_nonempty p store varArg argspec frame s2 ht
      split at h
      · rw [Except.ok.injEq] at h
        exact h ▸ hne
      · split at h
        · rw [Except.ok.injEq] at h
          exact h ▸ hne
        · exact absurd h (by simp)

theorem C9_witness :
    ProcedureGroup.get_lockable_objects none ["self"] (some [("self", PyVal.noneVal)]) =
      .ok {PyVal.str "lock"} ∧
    ({PyVal.str "lock"} : Finset PyVal).Nonempty :=
  ⟨by rfl, C9_nonempty_lock_sets.2.1 none ["self"] (some [("self", PyVal.noneVal)])
    {PyVal.str "lock"} (by rfl)⟩
